import Mathlib

/-!
Shallow embedding of the browser-agent learning core:
`src/core/session.py`, `src/learning/confidence_scorer.py`,
`src/learning/memory_store.py`, `src/intelligence/llm_client.py`, and the
score write-back step of `src/core/orchestrator.py`.

Python floats are modelled by `ℚ`, Python ints by `ℤ` or `ℕ`, Python `dict`
values produced by `json.load`/`json.dump` by the `Json` tree below (Python's
`json` module keeps `int` and `float` apart, hence two numeric constructors).
Mutation is modelled by explicit state passing: a method that mutates `self`
returns the updated value.
-/

namespace BrowserAgent

/-- JSON tree as produced by Python's `json.load`: null, bool, int, float,
string, array, object (`dict` with string keys, insertion ordered). -/
inductive Json where
  | null : Json
  | bool (b : Bool) : Json
  | int (n : ℤ) : Json
  | num (q : ℚ) : Json
  | str (s : String) : Json
  | arr (xs : List Json) : Json
  | obj (kvs : List (String × Json)) : Json
deriving Repr

/-- Key lookup in a JSON object, Python `dict.get(k)` / `data[k]`. -/
def jlookup (kvs : List (String × Json)) (k : String) : Option Json :=
  (kvs.find? (fun kv => kv.1 = k)).map (fun kv => kv.2)

/-- Expect a JSON string (decoding a `str`-typed dataclass field). -/
def asStr : Json → Option String
  | .str s => some s
  | _ => none

/-- Expect a JSON string or null (decoding a `str | None` field). -/
def asOptStr : Json → Option (Option String)
  | .null => some none
  | .str s => some (some s)
  | _ => none

/-- Expect a JSON bool. -/
def asBool : Json → Option Bool
  | .bool b => some b
  | _ => none

/-- Expect a JSON int (Python `int`). -/
def asInt : Json → Option ℤ
  | .int n => some n
  | _ => none

/-- Expect a JSON float (Python `float`). -/
def asNum : Json → Option ℚ
  | .num q => some q
  | _ => none

/-- Expect a JSON object. -/
def asObj : Json → Option (List (String × Json))
  | .obj kvs => some kvs
  | _ => none

/-- Expect a JSON array. -/
def asArr : Json → Option (List Json)
  | .arr xs => some xs
  | _ => none

/-- Encode an optional string the way `to_dict` leaves it for `json.dump`:
`None` becomes JSON null. -/
def optStrJson : Option String → Json
  | none => .null
  | some s => .str s

/-- ActionRecord from `src/core/session.py`: record of a single action taken
during a session, never mutated after creation. -/
structure ActionRecord where
  timestamp : String
  action_type : String
  selector : Option String
  value : Option String
  reasoning : String
  success : Bool
  page_url : String
  screenshot_path : Option String := none
deriving Repr, DecidableEq

/-- ActionRecord.to_dict from `src/core/session.py`. -/
def ActionRecord.to_dict (a : ActionRecord) : Json :=
  .obj
    [ ("timestamp", .str a.timestamp)
    , ("action_type", .str a.action_type)
    , ("selector", optStrJson a.selector)
    , ("value", optStrJson a.value)
    , ("reasoning", .str a.reasoning)
    , ("success", .bool a.success)
    , ("page_url", .str a.page_url)
    , ("screenshot_path", optStrJson a.screenshot_path) ]

/-- ActionRecord.from_dict from `src/core/session.py`: `cls(**data)`; a field
with a dataclass default may be absent from the dict. -/
def ActionRecord.from_dict (j : Json) : Option ActionRecord := do
  let kvs ← asObj j
  let timestamp ← (jlookup kvs "timestamp").bind asStr
  let action_type ← (jlookup kvs "action_type").bind asStr
  let selector ← (jlookup kvs "selector").bind asOptStr
  let value ← (jlookup kvs "value").bind asOptStr
  let reasoning ← (jlookup kvs "reasoning").bind asStr
  let success ← (jlookup kvs "success").bind asBool
  let page_url ← (jlookup kvs "page_url").bind asStr
  let screenshot_path ←
    match jlookup kvs "screenshot_path" with
    | none => some none
    | some v => asOptStr v
  some { timestamp, action_type, selector, value, reasoning, success,
         page_url, screenshot_path }

/-- Session from `src/core/session.py`: one learning run for a URL.
`metadata` holds arbitrary JSON key-value pairs (`dict[str, Any]`). -/
structure Session where
  session_id : String
  target_url : String
  created_at : String
  status : String := "active"
  actions : List ActionRecord := []
  confidence_score : ℚ := 0
  total_elements_found : ℤ := 0
  elements_explored : ℤ := 0
  metadata : List (String × Json) := []
deriving Repr

/-- Session.add_action: appends, the sole mutator of the action list. -/
def Session.add_action (s : Session) (a : ActionRecord) : Session :=
  { s with actions := s.actions ++ [a] }

/-- Session.to_dict from `src/core/session.py`. -/
def Session.to_dict (s : Session) : Json :=
  .obj
    [ ("session_id", .str s.session_id)
    , ("target_url", .str s.target_url)
    , ("created_at", .str s.created_at)
    , ("status", .str s.status)
    , ("actions", .arr (s.actions.map ActionRecord.to_dict))
    , ("confidence_score", .num s.confidence_score)
    , ("total_elements_found", .int s.total_elements_found)
    , ("elements_explored", .int s.elements_explored)
    , ("metadata", .obj s.metadata) ]

/-- Session.from_dict from `src/core/session.py`:
`data.pop("actions", [])` then `cls(actions=actions, **data)`; fields with
dataclass defaults may be absent from the dict. -/
def Session.from_dict (j : Json) : Option Session := do
  let kvs ← asObj j
  let actionsJson ←
    match jlookup kvs "actions" with
    | none => some []
    | some v => asArr v
  let actions ← actionsJson.mapM ActionRecord.from_dict
  let session_id ← (jlookup kvs "session_id").bind asStr
  let target_url ← (jlookup kvs "target_url").bind asStr
  let created_at ← (jlookup kvs "created_at").bind asStr
  let status ←
    match jlookup kvs "status" with
    | none => some "active"
    | some v => asStr v
  let confidence_score ←
    match jlookup kvs "confidence_score" with
    | none => some 0
    | some v => asNum v
  let total_elements_found ←
    match jlookup kvs "total_elements_found" with
    | none => some 0
    | some v => asInt v
  let elements_explored ←
    match jlookup kvs "elements_explored" with
    | none => some 0
    | some v => asInt v
  let metadata ←
    match jlookup kvs "metadata" with
    | none => some []
    | some v => asObj v
  some { session_id, target_url, created_at, status, actions,
         confidence_score, total_elements_found, elements_explored, metadata }

/-- Session.success_rate from `src/core/session.py`: successes over total,
`0.0` for an empty action list. -/
def Session.success_rate (s : Session) : ℚ :=
  if s.actions = [] then 0
  else (s.actions.countP (fun a => a.success) : ℚ) / (s.actions.length : ℚ)

/-- ConfidenceMetrics from `src/learning/confidence_scorer.py`: the four
sub-scores of learning progress. -/
structure ConfidenceMetrics where
  coverage_score : ℚ
  success_rate : ℚ
  pattern_stability : ℚ
  exploration_depth : ℚ
deriving Repr, DecidableEq

/-- ConfidenceMetrics.weighted_score: the fixed linear combination with
weights coverage 0.30, success_rate 0.25, pattern_stability 0.25,
exploration_depth 0.20. -/
def ConfidenceMetrics.weighted_score (m : ConfidenceMetrics) : ℚ :=
  m.coverage_score * (30 / 100)
    + m.success_rate * (25 / 100)
    + m.pattern_stability * (25 / 100)
    + m.exploration_depth * (20 / 100)

/-- ConfidenceScorer from `src/learning/confidence_scorer.py`; the threshold
defaults to 0.85 at construction. -/
structure ConfidenceScorer where
  threshold : ℚ := 85 / 100
  visited_selectors : List String := []
  successful_patterns : List (String × String) := []
deriving Repr

/-- ConfidenceScorer._calculate_pattern_stability: below 5 actions a fixed
0.3; otherwise the success ratio of `actions[-10:]` plus a variety bonus of
`min(distinct action types / 4, 0.3)`, capped at 1.0. -/
def calculate_pattern_stability (session : Session) : ℚ :=
  if session.actions.length < 5 then 3 / 10
  else
    let recent_actions := session.actions.drop (session.actions.length - 10)
    let recent_success_rate :=
      (recent_actions.countP (fun a => a.success) : ℚ) / (recent_actions.length : ℚ)
    let action_types := (session.actions.map (fun a => a.action_type)).dedup
    let variety_bonus := min ((action_types.length : ℚ) / 4) (3 / 10)
    min (recent_success_rate + variety_bonus) 1

/-- ConfidenceScorer._calculate_exploration_depth: URL diversity score plus
selector diversity score (Python `if a.selector` drops both `None` and the
empty string). -/
def calculate_exploration_depth (session : Session) : ℚ :=
  if session.actions = [] then 0
  else
    let unique_urls := (session.actions.map (fun a => a.page_url)).dedup
    let url_score := min ((unique_urls.length : ℚ) / 5) (1 / 2)
    let unique_selectors :=
      ((session.actions.filterMap (fun a => a.selector)).filter
        (fun sel => sel ≠ "")).dedup
    let selector_score := min ((unique_selectors.length : ℚ) / 20) (1 / 2)
    url_score + selector_score

/-- ConfidenceScorer.update: computes the four sub-scores from the session
and returns the metrics. The Python method only reads `session`; state
passing makes that explicit by returning the session it leaves behind. -/
def ConfidenceScorer.update (c : ConfidenceScorer) (session : Session) :
    ConfidenceMetrics × Session :=
  let coverage : ℚ :=
    if session.total_elements_found > 0 then
      (session.elements_explored : ℚ) / (session.total_elements_found : ℚ)
    else 0
  let metrics : ConfidenceMetrics :=
    { coverage_score := min coverage 1
      success_rate := session.success_rate
      pattern_stability := calculate_pattern_stability session
      exploration_depth := calculate_exploration_depth session }
  (metrics, session)

/-- ConfidenceScorer.is_learning_complete: false below 4 unique pages,
otherwise `weighted_score >= threshold`. -/
def ConfidenceScorer.is_learning_complete (c : ConfidenceScorer)
    (metrics : ConfidenceMetrics) (unique_pages : ℕ) : Bool :=
  if unique_pages < 4 then false
  else decide (c.threshold ≤ metrics.weighted_score)

/-- The score write-back in `Orchestrator._learning_loop`
(`session.confidence_score = metrics.weighted_score`): the caller, not the
scorer, stores the composite on the session. -/
def orchestratorScoreStep (session : Session) (metrics : ConfidenceMetrics) :
    Session :=
  { session with confidence_score := metrics.weighted_score }

/-- LearnedPattern from `src/learning/memory_store.py`: a persisted fact
about one (domain, selector) pair. -/
structure LearnedPattern where
  pattern_id : String
  domain : String
  element_type : String
  selector_pattern : String
  action_sequence : List String
  success_count : ℕ := 0
  failure_count : ℕ := 0
  last_used : String := ""
  metadata : List (String × Json) := []
deriving Repr

/-- LearnedPattern.reliability: successes over total, `0.5` when no outcome
has been recorded. -/
def LearnedPattern.reliability (p : LearnedPattern) : ℚ :=
  if p.success_count + p.failure_count = 0 then 1 / 2
  else (p.success_count : ℚ) / ((p.success_count + p.failure_count : ℕ) : ℚ)

/-- Zero-pad a natural to at least four digits, Python's `f"{n:04d}"` for a
non-negative argument. -/
def pad4 (n : ℕ) : String :=
  let s := toString n
  String.mk (List.replicate (4 - s.length) '0') ++ s

/-- The pattern id computed in `MemoryStore.add_pattern_from_action`:
`f"{domain}_{hash(selector) % 10000:04d}"`. CPython's builtin `hash` on
strings is a fixed function only within one interpreter process: it is
keyed by a per-process random seed (hash randomization), so the embedding
takes the process's string-hash function as a parameter `pyHash`. Python's
`%` on a positive modulus is `Int.emod`. -/
def pattern_id_of (pyHash : String → ℤ) (domain selector : String) : String :=
  domain ++ "_" ++ pad4 ((pyHash selector).emod 10000).toNat

/-- MemoryStore from `src/learning/memory_store.py`: the in-memory index
`self._patterns`, a dict keyed by pattern id (the per-id files on disk
mirror it write-through). -/
structure MemoryStore where
  patterns : List (String × LearnedPattern) := []
deriving Repr

/-- Insertion into a Python dict: overwrite in place if the key exists,
else append (dicts preserve insertion order). -/
def dictInsert (m : List (String × LearnedPattern)) (k : String)
    (v : LearnedPattern) : List (String × LearnedPattern) :=
  if m.any (fun kv => kv.1 = k) then
    m.map (fun kv => if kv.1 = k then (k, v) else kv)
  else m ++ [(k, v)]

/-- MemoryStore.save_pattern: `self._patterns[pattern.pattern_id] = pattern`
then write the one record through to disk. -/
def MemoryStore.save_pattern (store : MemoryStore) (p : LearnedPattern) :
    MemoryStore :=
  { store with patterns := dictInsert store.patterns p.pattern_id p }

/-- MemoryStore.get_patterns_for_domain: all stored patterns whose domain
matches. -/
def MemoryStore.get_patterns_for_domain (store : MemoryStore)
    (domain : String) : List LearnedPattern :=
  (store.patterns.map (fun kv => kv.2)).filter (fun p => p.domain = domain)

/-- MemoryStore.record_success: if the id is known, bump `success_count`,
refresh `last_used` with the current time, and save; otherwise do nothing. -/
def MemoryStore.record_success (store : MemoryStore) (pid : String)
    (now : String) : MemoryStore :=
  match store.patterns.find? (fun kv => kv.1 = pid) with
  | some kv =>
      store.save_pattern
        { kv.2 with success_count := kv.2.success_count + 1, last_used := now }
  | none => store

/-- MemoryStore.record_failure: if the id is known, bump `failure_count` and
save (the Python code does not refresh `last_used` here). -/
def MemoryStore.record_failure (store : MemoryStore) (pid : String) :
    MemoryStore :=
  match store.patterns.find? (fun kv => kv.1 = pid) with
  | some kv =>
      store.save_pattern { kv.2 with failure_count := kv.2.failure_count + 1 }
  | none => store

/-- MemoryStore.add_pattern_from_action: derive the id from (domain,
selector), fetch or create the record, bump the outcome counter, refresh
`last_used`, save; returns the id. -/
def MemoryStore.add_pattern_from_action (store : MemoryStore)
    (pyHash : String → ℤ) (domain element_type selector action_type : String)
    (success : Bool) (now : String) : MemoryStore × String :=
  let pattern_id := pattern_id_of pyHash domain selector
  let pattern :=
    match store.patterns.find? (fun kv => kv.1 = pattern_id) with
    | some kv => kv.2
    | none =>
        { pattern_id, domain, element_type, selector_pattern := selector,
          action_sequence := [action_type] : LearnedPattern }
  let pattern :=
    if success then { pattern with success_count := pattern.success_count + 1 }
    else { pattern with failure_count := pattern.failure_count + 1 }
  let pattern := { pattern with last_used := now }
  (store.save_pattern pattern, pattern_id)

/-- The public MemoryStore operations, as one step alphabet for stating
store invariants. Queries leave the store unchanged because the Python
methods only read `self._patterns`. -/
inductive MemOp where
  | savePattern (p : LearnedPattern) : MemOp
  | recordSuccess (pid now : String) : MemOp
  | recordFailure (pid : String) : MemOp
  | addFromAction (pyHash : String → ℤ)
      (domain element_type selector action_type : String)
      (success : Bool) (now : String) : MemOp
  | patternsForDomain (domain : String) : MemOp

/-- Effect of one MemoryStore operation on the store state. -/
def applyMemOp (store : MemoryStore) : MemOp → MemoryStore
  | .savePattern p => store.save_pattern p
  | .recordSuccess pid now => store.record_success pid now
  | .recordFailure pid => store.record_failure pid
  | .addFromAction pyHash domain element_type selector action_type success now =>
      (store.add_pattern_from_action pyHash domain element_type selector
        action_type success now).1
  | .patternsForDomain _ => store

/-- The set of stored pattern ids, as the key list of the index. -/
def MemoryStore.patternIds (store : MemoryStore) : List String :=
  store.patterns.map (fun kv => kv.1)

/-- Action from `src/intelligence/llm_client.py`: the decision returned by
the provider (or the fallback). -/
structure Action where
  type : String
  selector : Option String
  value : Option String
  reasoning : String
  confidence : ℚ
  observations : String := ""
  next_targets : Option (List String) := none
deriving Repr, DecidableEq

/-- Decode a number that may arrive as a JSON int or float (Python reads
`confidence` as either). -/
def asRatNum : Json → Option ℚ
  | .int n => some (n : ℚ)
  | .num q => some q
  | _ => none

/-- Action.from_dict from `src/intelligence/llm_client.py`: `dict.get` with
defaults; absent or null optional fields become `None`. -/
def Action.from_dict (data : List (String × Json)) : Action :=
  { type :=
      match jlookup data "action" with
      | some (.str s) => s
      | _ => "wait"
    selector :=
      match jlookup data "selector" with
      | some (.str s) => some s
      | _ => none
    value :=
      match jlookup data "value" with
      | some (.str s) => some s
      | _ => none
    reasoning :=
      match jlookup data "reasoning" with
      | some (.str s) => s
      | _ => ""
    confidence :=
      match (jlookup data "confidence").bind asRatNum with
      | some q => q
      | none => 1 / 2
    observations :=
      match jlookup data "observations" with
      | some (.str s) => s
      | _ => ""
    next_targets :=
      match jlookup data "next_exploration_targets" with
      | some (.arr xs) => xs.mapM asStr
      | _ => none }

/-- The fallback Action built in the `except` branch of
`LLMClient.decide_action`. -/
def fallbackAction (e : String) : Action :=
  { type := "wait", selector := none, value := some "1",
    reasoning := "Error occurred: " ++ e ++ ". Waiting before retry.",
    confidence := 0 }

/-- LLMClient.decide_action: run the provider call, parse its text into a
JSON object, build the Action; any exception from either stage is caught
and replaced by the fallback. `callResult` is the outcome of `_call_llm`
(transport), `parse` the outcome of `_parse_json_response` on the returned
text (raises on unparsable input). -/
def decide_action (callResult : Except String String)
    (parse : String → Except String (List (String × Json))) : Action :=
  match (do
      let text ← callResult
      let data ← parse text
      Except.ok (Action.from_dict data) : Except String Action) with
  | .ok a => a
  | .error e => fallbackAction e

/-- Key list of a pattern index (the dict's keys in order). -/
def dictKeys (m : List (String × LearnedPattern)) : List String :=
  m.map (fun kv => kv.1)

/-- Concrete ActionRecord used to evaluate the scorer on closed inputs. -/
def fixAct (ty : String) (success : Bool) (url : String) : ActionRecord :=
  { timestamp := "2024-01-01T00:00:00", action_type := ty, selector := some "#el",
    value := none, reasoning := "why", success, page_url := url }

/-- Concrete freshly created session (no actions yet). -/
def emptySession : Session :=
  { session_id := "s0", target_url := "http://x", created_at := "c" }

/-- Concrete session with six recorded actions of five kinds over three
pages. -/
def sixActionSession : Session :=
  { session_id := "s6", target_url := "http://x", created_at := "c",
    actions := [fixAct "click" true "u1", fixAct "type" true "u1",
                fixAct "scroll" false "u2", fixAct "click" true "u2",
                fixAct "hover" true "u3", fixAct "wait" true "u3"] }

/-- Concrete learned pattern with three successes and one failure. -/
def fixPattern : LearnedPattern :=
  { pattern_id := "example.com_0042", domain := "example.com",
    element_type := "button", selector_pattern := "#submit",
    action_sequence := ["click"], success_count := 3, failure_count := 1 }

/-- Concrete memory store holding `fixPattern`. -/
def fixStore : MemoryStore := { patterns := [("example.com_0042", fixPattern)] }

/-- C1: for a ConfidenceMetrics whose four sub-scores each lie in [0,1], the
composite weighted score equals
0.30·coverage + 0.25·success_rate + 0.25·pattern_stability +
0.20·exploration_depth and lies in [0,1]. -/
theorem weighted_score_linear_and_bounded (m : ConfidenceMetrics)
    (h1 : 0 ≤ m.coverage_score) (h2 : m.coverage_score ≤ 1)
    (h3 : 0 ≤ m.success_rate) (h4 : m.success_rate ≤ 1)
    (h5 : 0 ≤ m.pattern_stability) (h6 : m.pattern_stability ≤ 1)
    (h7 : 0 ≤ m.exploration_depth) (h8 : m.exploration_depth ≤ 1) :
    m.weighted_score
        = 30 / 100 * m.coverage_score + 25 / 100 * m.success_rate
          + 25 / 100 * m.pattern_stability + 20 / 100 * m.exploration_depth
      ∧ 0 ≤ m.weighted_score ∧ m.weighted_score ≤ 1 := by
  unfold ConfidenceMetrics.weighted_score
  refine ⟨by ring, by nlinarith, by nlinarith⟩

/-- Witness for C1 at the spec's example point (0.8, 0.9, 0.7, 0.6), whose
composite is 0.76. -/
theorem weighted_score_linear_and_bounded_example :
    (ConfidenceMetrics.mk (8/10) (9/10) (7/10) (6/10)).weighted_score
        = 30 / 100 * (8/10) + 25 / 100 * (9/10) + 25 / 100 * (7/10)
          + 20 / 100 * (6/10)
      ∧ 0 ≤ (ConfidenceMetrics.mk (8/10) (9/10) (7/10) (6/10)).weighted_score
      ∧ (ConfidenceMetrics.mk (8/10) (9/10) (7/10) (6/10)).weighted_score ≤ 1 :=
  weighted_score_linear_and_bounded _ (by norm_num) (by norm_num) (by norm_num)
    (by norm_num) (by norm_num) (by norm_num) (by norm_num) (by norm_num)

/-- C2: is_learning_complete is false whenever fewer than 4 unique pages were
visited, regardless of the score; with at least 4 pages it holds exactly when
the composite reaches the construction-time threshold, whose default is
0.85. -/
theorem is_learning_complete_spec (c : ConfidenceScorer)
    (m : ConfidenceMetrics) (up : ℕ) :
    (up < 4 → c.is_learning_complete m up = false)
      ∧ (4 ≤ up →
          (c.is_learning_complete m up = true ↔ c.threshold ≤ m.weighted_score))
      ∧ ({} : ConfidenceScorer).threshold = 85 / 100 := by
  refine ⟨fun h => ?_, fun h => ?_, rfl⟩
  · simp [ConfidenceScorer.is_learning_complete, h]
  · rw [ConfidenceScorer.is_learning_complete, if_neg (Nat.not_lt.mpr h)]
    simp

/-- Witness for C2: a 0.99 composite with one unique page is not complete;
a perfect composite with five unique pages is, at the default threshold. -/
theorem is_learning_complete_spec_example :
    (({} : ConfidenceScorer).is_learning_complete
        (ConfidenceMetrics.mk (99/100) (99/100) (99/100) (99/100)) 1 = false)
      ∧ (({} : ConfidenceScorer).is_learning_complete
          (ConfidenceMetrics.mk 1 1 1 1) 5 = true) := by
  constructor
  · exact (is_learning_complete_spec {} _ 1).1 (by norm_num)
  · exact ((is_learning_complete_spec {} _ 5).2.1 (by norm_num)).mpr
      (by norm_num [ConfidenceMetrics.weighted_score])

/-- C3: the pattern id of `add_pattern_from_action` is a function of the
process's string-hash function: two interpreter processes whose (randomly
seeded) string hashes differ on the selector produce different ids for the
same (domain, selector) pair, so the id is not stable across process
restarts. Evaluated at domain `example.com`, selector `#submit`, for the two
admissible per-process hash functions that send every string to 0 and to
1. -/
theorem pattern_id_unstable_across_processes :
    pattern_id_of (fun _ => 0) "example.com" "#submit" = "example.com_0000"
      ∧ pattern_id_of (fun _ => 1) "example.com" "#submit" = "example.com_0001"
      ∧ pattern_id_of (fun _ => 0) "example.com" "#submit"
          ≠ pattern_id_of (fun _ => 1) "example.com" "#submit" :=
  ⟨rfl, rfl, by decide⟩

/-- C4: with fewer than 5 actions, pattern stability is the constant 0.3;
otherwise it is the success ratio of the most recent 10 actions (all of them
when fewer than 10 exist) plus a variety bonus of
min(distinct action kinds / 4, 0.3), capped at 1. -/
theorem pattern_stability_spec (s : Session) :
    (s.actions.length < 5 → calculate_pattern_stability s = 3 / 10)
      ∧ (5 ≤ s.actions.length →
          calculate_pattern_stability s =
            min
              (((s.actions.drop (s.actions.length - 10)).countP
                    (fun a => a.success) : ℚ)
                  / ((min 10 s.actions.length : ℕ) : ℚ)
                + min
                    (((s.actions.map (fun a => a.action_type)).dedup.length : ℚ)
                      / 4) (3 / 10))
              1) := by
  constructor
  · intro h
    rw [calculate_pattern_stability, if_pos h]
  · intro h
    have hlen : (s.actions.drop (s.actions.length - 10)).length
        = min 10 s.actions.length := by
      rw [List.length_drop]; omega
    rw [calculate_pattern_stability, if_neg (Nat.not_lt.mpr h)]
    simp only [hlen]

/-- Witness for C4 on the six-action fixture session. -/
theorem pattern_stability_spec_example :
    calculate_pattern_stability sixActionSession =
      min
        (((sixActionSession.actions.drop
              (sixActionSession.actions.length - 10)).countP
              (fun a => a.success) : ℚ)
            / ((min 10 sixActionSession.actions.length : ℕ) : ℚ)
          + min
              (((sixActionSession.actions.map
                    (fun a => a.action_type)).dedup.length : ℚ) / 4) (3 / 10))
        1 :=
  (pattern_stability_spec sixActionSession).2 (by decide)

/-- Round trip for one ActionRecord through its dict form. -/
theorem ar_roundtrip (a : ActionRecord) :
    ActionRecord.from_dict (ActionRecord.to_dict a) = some a := by
  obtain ⟨t, ty, sel, v, r, su, url, sp⟩ := a
  cases sel <;> cases v <;> cases sp <;> rfl

/-- Round trip for a list of ActionRecords, stated over the accumulator form
of `List.mapM`. -/
theorem ar_mapM_loop_roundtrip (l acc : List ActionRecord) :
    List.mapM.loop ActionRecord.from_dict (l.map ActionRecord.to_dict) acc
      = some (acc.reverse ++ l) := by
  induction l generalizing acc with
  | nil => simp [List.mapM.loop]
  | cons a tl ih => simp [List.mapM.loop, ar_roundtrip a, ih]

/-- C5: serializing any Session (any status, actions with or without optional
fields, any counters and metadata) and deserializing the result restores the
Session exactly. -/
theorem session_roundtrip (s : Session) :
    Session.from_dict (Session.to_dict s) = some s := by
  obtain ⟨sid, turl, cat, st, acts, cs, tef, ee, md⟩ := s
  simp +decide [Session.from_dict, Session.to_dict, jlookup, List.find?,
    asObj, asArr, asStr, asNum, asInt, ar_mapM_loop_roundtrip, Option.bind]

/-- C6: reliability is successes over total outcomes once any outcome exists,
and exactly 0.5 with no outcomes; after 3 successes and 1 failure it is
0.75. -/
theorem reliability_spec (p : LearnedPattern) :
    (p.success_count + p.failure_count = 0 → p.reliability = 1 / 2)
      ∧ (p.success_count + p.failure_count ≠ 0 →
          p.reliability =
            (p.success_count : ℚ)
              / ((p.success_count : ℚ) + (p.failure_count : ℚ)))
      ∧ fixPattern.reliability = 3 / 4 := by
  refine ⟨fun h => ?_, fun h => ?_,
    by norm_num [fixPattern, LearnedPattern.reliability]⟩
  · rw [LearnedPattern.reliability, if_pos h]
  · rw [LearnedPattern.reliability, if_neg h]
    push_cast
    ring_nf

/-- Witness for C6 on the 3-success/1-failure fixture pattern. -/
theorem reliability_spec_example :
    fixPattern.reliability =
      (fixPattern.success_count : ℚ)
        / ((fixPattern.success_count : ℚ) + (fixPattern.failure_count : ℚ)) :=
  (reliability_spec fixPattern).2.1 (by decide)

/-- C7: whenever the provider call or the response parse fails,
decide_action returns the fallback action instead of propagating the error;
the fallback is a `wait` with confidence 0 whose reasoning records the
failure text. -/
theorem decide_action_fallback_spec (call : Except String String)
    (parse : String → Except String (List (String × Json))) (e : String) :
    (call = .error e → decide_action call parse = fallbackAction e)
      ∧ (∀ text, call = .ok text → parse text = .error e →
          decide_action call parse = fallbackAction e)
      ∧ (fallbackAction e).type = "wait"
      ∧ (fallbackAction e).confidence = 0
      ∧ (fallbackAction e).reasoning
          = "Error occurred: " ++ e ++ ". Waiting before retry." := by
  refine ⟨fun h => ?_, fun text hc hp => ?_, rfl, rfl, rfl⟩
  · subst h; rfl
  · subst hc
    unfold decide_action
    have hbind : (do
        let t ← (Except.ok text : Except String String)
        let data ← parse t
        Except.ok (Action.from_dict data) : Except String Action)
          = Except.error e := by
      show ((parse text).bind fun data => Except.ok (Action.from_dict data))
          = Except.error e
      rw [hp]
      rfl
    rw [hbind]

/-- Witness for C7 at a concrete transport error and a concrete parse
failure. -/
theorem decide_action_fallback_spec_example :
    ((Except.error "boom" : Except String String) = .error "boom" →
        decide_action (Except.error "boom")
          (fun _ => Except.error "parse") = fallbackAction "boom")
      ∧ (∀ text, (Except.error "boom" : Except String String) = .ok text →
          (fun _ =>
              (Except.error "parse" : Except String (List (String × Json)))) text
              = .error "boom" →
          decide_action (Except.error "boom") (fun _ => Except.error "parse")
            = fallbackAction "boom")
      ∧ (fallbackAction "boom").type = "wait"
      ∧ (fallbackAction "boom").confidence = 0
      ∧ (fallbackAction "boom").reasoning
          = "Error occurred: " ++ "boom" ++ ". Waiting before retry." :=
  decide_action_fallback_spec (Except.error "boom")
    (fun _ => Except.error "parse") "boom"

/-- Overwriting one key of a pattern index leaves its key list unchanged. -/
theorem map_fst_overwrite (m : List (String × LearnedPattern)) (k' : String)
    (v : LearnedPattern) :
    dictKeys (m.map (fun kv => if kv.1 = k' then (k', v) else kv))
      = dictKeys m := by
  induction m with
  | nil => rfl
  | cons a tl ih =>
      by_cases h : a.1 = k' <;> simp [dictKeys, h] <;>
        simpa [dictKeys] using ih

/-- Dict insertion never removes a key. -/
theorem mem_keys_dictInsert {m : List (String × LearnedPattern)} {k : String}
    (k' : String) (v : LearnedPattern) (hk : k ∈ dictKeys m) :
    k ∈ dictKeys (dictInsert m k' v) := by
  unfold dictInsert
  split
  · rw [map_fst_overwrite]; exact hk
  · simp [dictKeys] at hk ⊢
    exact Or.inl hk

/-- Saving a pattern never removes a stored id. -/
theorem mem_ids_save (store : MemoryStore) (p : LearnedPattern) {k : String}
    (hk : k ∈ store.patternIds) : k ∈ (store.save_pattern p).patternIds :=
  mem_keys_dictInsert _ _ hk

/-- C8: no MemoryStore operation deletes a pattern record: every pattern id
stored before an operation is still stored after it. -/
theorem memory_store_ids_monotone (store : MemoryStore) (op : MemOp)
    (k : String) (hk : k ∈ store.patternIds) :
    k ∈ (applyMemOp store op).patternIds := by
  cases op with
  | savePattern p => exact mem_ids_save store p hk
  | recordSuccess pid now =>
      show k ∈ (store.record_success pid now).patternIds
      unfold MemoryStore.record_success
      split
      · exact mem_ids_save _ _ hk
      · exact hk
  | recordFailure pid =>
      show k ∈ (store.record_failure pid).patternIds
      unfold MemoryStore.record_failure
      split
      · exact mem_ids_save _ _ hk
      · exact hk
  | addFromAction pyHash domain element_type selector action_type success now =>
      exact mem_ids_save _ _ hk
  | patternsForDomain domain => exact hk

/-- Witness for C8: recording a failure on the fixture store keeps its
stored id. -/
theorem memory_store_ids_monotone_example :
    "example.com_0042" ∈
      (applyMemOp fixStore (MemOp.recordFailure "example.com_0042")).patternIds :=
  memory_store_ids_monotone fixStore _ _ (by decide)

/-- C9: success rate is the number of successful actions over the total
number of actions, and exactly 0 for a session with no actions. -/
theorem success_rate_spec (s : Session) :
    (s.actions = [] → s.success_rate = 0)
      ∧ (s.actions ≠ [] →
          s.success_rate =
            ((s.actions.filter (fun a => a.success)).length : ℚ)
              / (s.actions.length : ℚ)) := by
  refine ⟨fun h => ?_, fun h => ?_⟩
  · rw [Session.success_rate, if_pos h]
  · rw [Session.success_rate, if_neg h, List.countP_eq_length_filter]

/-- Witness for C9 on the empty fixture session. -/
theorem success_rate_spec_example :
    emptySession.success_rate = 0 :=
  (success_rate_spec emptySession).1 (by decide)

/-- C10: ConfidenceScorer.update leaves every field of the session it reads
unchanged; the composite score reaches the session only through the
orchestrator's own write-back step. -/
theorem update_preserves_session (c : ConfidenceScorer) (s : Session) :
    (c.update s).2.status = s.status
      ∧ (c.update s).2.actions = s.actions
      ∧ (c.update s).2.confidence_score = s.confidence_score
      ∧ (c.update s).2.total_elements_found = s.total_elements_found
      ∧ (c.update s).2.elements_explored = s.elements_explored
      ∧ (c.update s).2.metadata = s.metadata
      ∧ (orchestratorScoreStep s (c.update s).1).confidence_score
          = ((c.update s).1).weighted_score :=
  ⟨rfl, rfl, rfl, rfl, rfl, rfl, rfl⟩

end BrowserAgent
